import Mathlib

/-!
Verification of the FPL analysis tool (`src/api/fpl_client.py`,
`src/analysis/player_analyzer.py`, `src/analysis/fixture_analyzer.py`,
`src/analysis/transfer_advisor.py`).

Shallow embedding conventions:
* pandas DataFrames are `List` of record structures; column assignments become
  record fields computed in a `map`;
* Python floats are `ℚ`; the string-typed numeric API fields (`form`,
  `selected_by_percent`, `points_per_game`) are modelled directly as `ℚ`,
  standing for the parsed value of the decimal string;
* `round(x, 2)` / `.round(2)` is `round2` below (Mathlib round, half-up; Python
  uses half-to-even on floats — no claim below depends on half-way ties);
* rational division `q / 0 = 0` stands in for the non-finite float that numpy
  produces on division by zero; no theorem below depends on how a zero-price
  row is ordered relative to other rows;
* `pd.sort_values` is an insertion sort on the relevant key (only sortedness
  and permutation facts are used, never tie order, since pandas quicksort is
  not stable);
* the trailing display-column selections (`df[columns]`) of the analyzer
  methods are dropped so that theorems can still refer to the team id of a
  returned row; every field a claim mentions is kept.  The one column
  selection that is behaviourally load-bearing — `get_upcoming_fixtures`
  returning only five columns, in particular *without* `team_h` — is modelled
  faithfully by `UpcomingRow`.
-/

/-- Python `round(x, 2)`: round to two decimal places. -/
def round2 (q : ℚ) : ℚ := (round (q * 100) : ℚ) / 100

/-- Does the character list start with `pat`? -/
def startsWithChars : List Char → List Char → Bool
  | [], _ => true
  | _ :: _, [] => false
  | a :: as, b :: bs => a = b && startsWithChars as bs

/-- Does `pat` occur as a contiguous run inside the character list? -/
def occursIn (pat : List Char) : List Char → Bool
  | [] => pat.isEmpty
  | b :: bs => startsWithChars pat (b :: bs) || occursIn pat bs

/-- Python `str.lower()`, character by character (the names this code
handles are ASCII, where this agrees with `String.toLower`). -/
def lowerChars (l : List Char) : List Char := l.map Char.toLower

/-- Python `str.upper()`, character by character. -/
def strUpper (s : String) : String := String.mk (s.data.map Char.toUpper)

/-- Python `pat.lower() in s.lower()` and pandas
`s.str.contains(pat, case=False)` (the patterns used by this code base are
plain names, so regex matching coincides with substring matching). -/
def strContainsCI (s pat : String) : Bool :=
  occursIn (lowerChars pat.data) (lowerChars s.data)

/-- Relation `key a ≤ key b`: the ordering used for an ascending `sort_values`. -/
def byKeyLE {α : Type} {β : Type} [LinearOrder β] (key : α → β) (a b : α) : Prop :=
  key a ≤ key b

/-- Relation `key b ≤ key a`: the ordering used for a descending `sort_values`. -/
def byKeyGE {α : Type} {β : Type} [LinearOrder β] (key : α → β) (a b : α) : Prop :=
  key b ≤ key a

instance {α : Type} {β : Type} [LinearOrder β] (key : α → β) :
    DecidableRel (byKeyLE key) :=
  fun a b => inferInstanceAs (Decidable (key a ≤ key b))

instance {α : Type} {β : Type} [LinearOrder β] (key : α → β) :
    DecidableRel (byKeyGE key) :=
  fun a b => inferInstanceAs (Decidable (key b ≤ key a))

instance {α : Type} {β : Type} [LinearOrder β] (key : α → β) :
    IsTotal α (byKeyLE key) :=
  ⟨fun a b => le_total (key a) (key b)⟩

instance {α : Type} {β : Type} [LinearOrder β] (key : α → β) :
    IsTrans α (byKeyLE key) :=
  ⟨fun _ _ _ h1 h2 => le_trans h1 h2⟩

instance {α : Type} {β : Type} [LinearOrder β] (key : α → β) :
    IsTotal α (byKeyGE key) :=
  ⟨fun a b => le_total (key b) (key a)⟩

instance {α : Type} {β : Type} [LinearOrder β] (key : α → β) :
    IsTrans α (byKeyGE key) :=
  ⟨fun _ _ _ h1 h2 => le_trans h2 h1⟩

/-- Pandas `df.sort_values(col)` (ascending). -/
def sortAscBy {α : Type} {β : Type} [LinearOrder β] (key : α → β) (l : List α) :
    List α :=
  List.insertionSort (byKeyLE key) l

/-- Pandas `df.sort_values(col, ascending=False)`. -/
def sortDescBy {α : Type} {β : Type} [LinearOrder β] (key : α → β) (l : List α) :
    List α :=
  List.insertionSort (byKeyGE key) l

/-- Pandas `series.unique()`: the distinct values in order of first appearance. -/
def dedupFirst {α : Type} [DecidableEq α] : List α → List α
  | [] => []
  | a :: as => a :: dedupFirst (as.filter (fun b => b ≠ a))
termination_by l => l.length
decreasing_by
  simp only [List.length_cons]
  exact Nat.lt_succ_of_le (List.length_filter_le _ _)

/-! ## Raw API records (`bootstrap-static` elements/teams, `/fixtures/`) -/

/-- A raw player record (`elements` entry) with the fields this code reads. -/
structure Element where
  id : ℕ
  web_name : String
  team : ℕ
  element_type : ℕ
  now_cost : ℤ
  total_points : ℤ
  form : ℚ
  points_per_game : ℚ
  selected_by_percent : ℚ
  status : String
  deriving DecidableEq

/-- A raw team record. -/
structure Team where
  id : ℕ
  name : String
  short_name : String
  deriving DecidableEq

/-- A raw fixture record with the fields this code reads. -/
structure Fixture where
  id : ℕ
  event : ℕ
  team_h : ℕ
  team_a : ℕ
  team_h_difficulty : ℤ
  team_a_difficulty : ℤ
  finished : Bool
  deriving DecidableEq

/-- The decoded `bootstrap-static` payload. -/
structure Bootstrap where
  elements : List Element
  teams : List Team
  deriving DecidableEq

/-- Lookup `dict(zip(teams_df['id'], teams_df['name']))` followed by `.map`: team-id
to name lookup.  A missing id gives pandas `NaN`; `""` stands in for it (no
claim exercises a dangling team reference). -/
def teamNameOf (teams : List Team) (tid : ℕ) : String :=
  match teams.find? (fun t => t.id = tid) with
  | some t => t.name
  | none => ""

/-- Same for `short_name`. -/
def teamShortOf (teams : List Team) (tid : ℕ) : String :=
  match teams.find? (fun t => t.id = tid) with
  | some t => t.short_name
  | none => ""

/-- Mapping `positions = {1:'GKP',2:'DEF',3:'MID',4:'FWD'}` then `.map`; `""` stands in
for the `NaN` of an unknown `element_type`. -/
def positionOf (et : ℕ) : String :=
  if et = 1 then "GKP"
  else if et = 2 then "DEF"
  else if et = 3 then "MID"
  else if et = 4 then "FWD"
  else ""

/-! ## `PlayerAnalyzer._load_data`: the denormalized player table -/

/-- A row of `players_df` after `_load_data` added the derived columns. -/
structure PlayerRow where
  id : ℕ
  web_name : String
  team : ℕ
  element_type : ℕ
  now_cost : ℤ
  total_points : ℤ
  form : ℚ
  points_per_game : ℚ
  selected_by_percent : ℚ
  status : String
  team_name : String
  position : String
  value : ℚ
  points_per_million : ℚ
  deriving DecidableEq

/-- Method `PlayerAnalyzer._load_data`: join team names and position labels onto the
raw elements and derive `value = now_cost / 10.0` and
`points_per_million = (total_points / value).round(2)`.  For `value = 0` the
rational convention `q / 0 = 0` stands in for numpy's non-finite float. -/
def load_data (data : Bootstrap) : List PlayerRow :=
  data.elements.map fun e =>
    { id := e.id
      web_name := e.web_name
      team := e.team
      element_type := e.element_type
      now_cost := e.now_cost
      total_points := e.total_points
      form := e.form
      points_per_game := e.points_per_game
      selected_by_percent := e.selected_by_percent
      status := e.status
      team_name := teamNameOf data.teams e.team
      position := positionOf e.element_type
      value := (e.now_cost : ℚ) / 10
      points_per_million := round2 ((e.total_points : ℚ) / ((e.now_cost : ℚ) / 10)) }

/-- Python `if position:`: a `None` or empty-string position argument skips the
position filter (Python truthiness); otherwise keep rows whose `position`
equals the upper-cased argument. -/
def filterPosition (pos : Option String) (df : List PlayerRow) : List PlayerRow :=
  match pos with
  | none => df
  | some p => if p = "" then df else df.filter (fun r => r.position = strUpper p)

/-- Python `if max_price:`: `None` or `0` skips the price filter (Python
truthiness); otherwise keep rows with `value <= max_price`. -/
def filterMaxPrice (mp : Option ℚ) (df : List PlayerRow) : List PlayerRow :=
  match mp with
  | none => df
  | some m => if m = 0 then df else df.filter (fun r => r.value ≤ m)

/-- Method `PlayerAnalyzer.get_best_value_players` without the final `head(n)`: the
fully ranked list (position filter, price filter, `status == 'a'` and
`total_points > 0`, sorted by `points_per_million` descending). -/
def bestValueRanked (data : Bootstrap) (pos : Option String) (mp : Option ℚ) :
    List PlayerRow :=
  sortDescBy (fun r => r.points_per_million)
    ((filterMaxPrice mp (filterPosition pos (load_data data))).filter
      (fun r => r.status = "a" && r.total_points > 0))

/-- Method `PlayerAnalyzer.get_best_value_players` (the display-column selection is
dropped; all claim-relevant fields are kept). -/
def get_best_value_players (data : Bootstrap) (n : ℕ) (pos : Option String)
    (mp : Option ℚ) : List PlayerRow :=
  (bestValueRanked data pos mp).take n

/-! ## `FixtureAnalyzer._load_data`: the fixture table -/

/-- A row of `fixtures_df` after `_load_data` joined the team labels. -/
structure FixtureRow where
  id : ℕ
  event : ℕ
  team_h : ℕ
  team_a : ℕ
  team_h_difficulty : ℤ
  team_a_difficulty : ℤ
  finished : Bool
  home_team_name : String
  away_team_name : String
  home_short : String
  away_short : String
  deriving DecidableEq

/-- Method `FixtureAnalyzer._load_data`: join full and short team names onto the raw
fixtures. -/
def load_fixture_data (fixtures : List Fixture) (teams : List Team) :
    List FixtureRow :=
  fixtures.map fun f =>
    { id := f.id
      event := f.event
      team_h := f.team_h
      team_a := f.team_a
      team_h_difficulty := f.team_h_difficulty
      team_a_difficulty := f.team_a_difficulty
      finished := f.finished
      home_team_name := teamNameOf teams f.team_h
      away_team_name := teamNameOf teams f.team_a
      home_short := teamShortOf teams f.team_h
      away_short := teamShortOf teams f.team_a }

/-- The five columns `get_upcoming_fixtures` selects.  Note there is no
`team_h` column: `get_captaincy_picks` later does `fixture.get('team_h', 0)`
on such a row and always gets the default `0`. -/
structure UpcomingRow where
  event : ℕ
  home_short : String
  away_short : String
  team_h_difficulty : ℤ
  team_a_difficulty : ℤ
  deriving DecidableEq

/-- Call `pandas.Series.get('team_h', 0)` on an `UpcomingRow`: the column does not
exist, so the call returns the default `0` whatever the row is. -/
def rowGetTeamH (_ : UpcomingRow) : ℕ := 0

/-- Method `FixtureAnalyzer.get_upcoming_fixtures`: fixtures whose home or away team
name contains `team_name` (case-insensitively), not finished, sorted by
gameweek, first `n`, projected to the five display columns. -/
def get_upcoming_fixtures (fx : List FixtureRow) (team_name : String) (n : ℕ) :
    List UpcomingRow :=
  ((sortAscBy (fun r => r.event)
      ((fx.filter (fun r =>
          strContainsCI r.home_team_name team_name ||
          strContainsCI r.away_team_name team_name)).filter
        (fun r => r.finished = false))).take n).map
    fun r =>
      { event := r.event
        home_short := r.home_short
        away_short := r.away_short
        team_h_difficulty := r.team_h_difficulty
        team_a_difficulty := r.team_a_difficulty }

/-- One entry of the `fixtures` list in `get_fixture_difficulty`'s result. -/
structure FixtureInfo where
  gameweek : ℕ
  opponent : String
  venue : String
  difficulty : ℤ
  deriving DecidableEq

/-- The dictionary returned by `get_fixture_difficulty`.  The source omits the
`total_difficulty` key in the empty case, hence the `Option`. -/
structure DifficultyResult where
  team : String
  avg_difficulty : ℚ
  total_difficulty : Option ℤ
  fixtures : List FixtureInfo
  deriving DecidableEq

/-- The per-fixture branch of `get_fixture_difficulty`: the queried name is
substring-matched (case-insensitively) against the fixture's *home short
code*; on a match the home-side difficulty is used, otherwise the away-side
difficulty. -/
def difficultyInfoFor (team_name : String) (r : UpcomingRow) : FixtureInfo :=
  if strContainsCI r.home_short team_name then
    { gameweek := r.event
      opponent := r.away_short
      venue := "H"
      difficulty := r.team_h_difficulty }
  else
    { gameweek := r.event
      opponent := r.home_short
      venue := "A"
      difficulty := r.team_a_difficulty }

/-- Method `FixtureAnalyzer.get_fixture_difficulty`. -/
def get_fixture_difficulty (fx : List FixtureRow) (team_name : String)
    (n : ℕ) : DifficultyResult :=
  match get_upcoming_fixtures fx team_name n with
  | [] => { team := team_name, avg_difficulty := 0, total_difficulty := none,
            fixtures := [] }
  | u :: us =>
    let infos := (u :: us).map (difficultyInfoFor team_name)
    let difficulties : List ℤ := infos.map (fun i => i.difficulty)
    { team := team_name
      avg_difficulty :=
        round2 ((difficulties.sum : ℚ) / (difficulties.length : ℚ))
      total_difficulty := some difficulties.sum
      fixtures := infos }

/-! ## Double / blank gameweek detection -/

/-- One row of `get_double_gameweeks`'s result. -/
structure DoubleEntry where
  gameweek : ℕ
  team : String
  fixtures : ℕ
  deriving DecidableEq

/-- One row of `get_blank_gameweeks`'s result. -/
structure BlankEntry where
  gameweek : ℕ
  team : String
  deriving DecidableEq

/-- The inner counts of `get_double_gameweeks`: home fixtures plus away
fixtures of team `tid` among the unfinished fixtures `df` in gameweek `gw`. -/
def fixtureCount (df : List FixtureRow) (gw : ℕ) (tid : ℕ) : ℕ :=
  (df.filter (fun r => r.event = gw && r.team_h = tid)).length +
  (df.filter (fun r => r.event = gw && r.team_a = tid)).length

/-- Method `FixtureAnalyzer.get_double_gameweeks`: for every team and every distinct
gameweek of the unfinished fixtures, emit a row when the team has more than
one fixture in that gameweek; finally sort by gameweek. -/
def get_double_gameweeks (teams : List Team) (fx : List FixtureRow) :
    List DoubleEntry :=
  let df := fx.filter (fun r => r.finished = false)
  sortAscBy (fun e => e.gameweek)
    (teams.flatMap fun t =>
      ((dedupFirst (df.map (fun r => r.event))).filter
          (fun gw => fixtureCount df gw t.id > 1)).map
        fun gw =>
          { gameweek := gw, team := t.short_name,
            fixtures := fixtureCount df gw t.id })

/-- Method `FixtureAnalyzer.get_blank_gameweeks`: for every team and every distinct
gameweek of the unfinished fixtures (in sorted order), emit a row when the
team has no fixture in that gameweek; finally sort by gameweek. -/
def get_blank_gameweeks (teams : List Team) (fx : List FixtureRow) :
    List BlankEntry :=
  let df := fx.filter (fun r => r.finished = false)
  sortAscBy (fun e => e.gameweek)
    (teams.flatMap fun t =>
      ((sortAscBy id (dedupFirst (df.map (fun r => r.event)))).filter
          (fun gw =>
            ¬((df.filter (fun r =>
                r.event = gw && (r.team_h = t.id || r.team_a = t.id))).length
              > 0))).map
        fun gw => { gameweek := gw, team := t.short_name })

/-! ## `TransferAdvisor` -/

/-- The whole data a `TransferAdvisor` session works on: the decoded
`bootstrap-static` payload and the decoded `/fixtures/` payload (the HTTP
fetch and in-memory caching are modelled separately, on `FPLClient`). -/
structure AdvisorState where
  data : Bootstrap
  fixtures : List Fixture
  deriving DecidableEq

/-- The joined fixture table the advisor's `FixtureAnalyzer` holds. -/
def AdvisorState.fixRows (st : AdvisorState) : List FixtureRow :=
  load_fixture_data st.fixtures st.data.teams

/-- Lookup `teams_df[teams_df['id'] == team_id].iloc[0]`: the advisor looks the team
record up by id.  `iloc[0]` on an empty selection raises in Python; the junk
default stands in for that (no claim exercises a dangling team id). -/
def teamRecOf (teams : List Team) (tid : ℕ) : Team :=
  match teams.find? (fun t => t.id = tid) with
  | some t => t
  | none => { id := 0, name := "", short_name := "" }

/-- A player row of `get_transfer_targets` with its computed score columns. -/
structure TargetRow where
  p : PlayerRow
  fixture_score : ℚ
  transfer_score : ℚ
  deriving DecidableEq

/-- Filter stage of `TransferAdvisor.get_transfer_targets`: position/price
filters, then `status == 'a'` and `total_points > 20`. -/
def transferTargetsFiltered (st : AdvisorState) (pos : Option String)
    (mp : Option ℚ) : List PlayerRow :=
  (filterMaxPrice mp (filterPosition pos (load_data st.data))).filter
    (fun r => r.status = "a" && r.total_points > 20)

/-- Scoring step of `get_transfer_targets` for one row: the fixture score is
`5 - avg_difficulty` of the player's team over the next 5 fixtures, and the
transfer score is `(form*4 + points_per_million*0.3 + fixture_score*3)`
rounded to two decimals. -/
def transferTargetScored (st : AdvisorState) (r : PlayerRow) : TargetRow :=
  { p := r
    fixture_score := 5 -
      (get_fixture_difficulty st.fixRows
        (teamRecOf st.data.teams r.team).name 5).avg_difficulty
    transfer_score :=
      round2 (r.form * 4 + r.points_per_million * (3 / 10) +
        (5 - (get_fixture_difficulty st.fixRows
          (teamRecOf st.data.teams r.team).name 5).avg_difficulty) * 3) }

/-- Method `TransferAdvisor.get_transfer_targets` without the final
`head(n)`: filter, score, sort descending by transfer score.  The per-team
dictionary `fixture_scores` is replaced by the equivalent per-row
computation. -/
def transferTargetsRanked (st : AdvisorState) (pos : Option String)
    (mp : Option ℚ) : List TargetRow :=
  sortDescBy (fun s => s.transfer_score)
    ((transferTargetsFiltered st pos mp).map (transferTargetScored st))

/-- Method `TransferAdvisor.get_transfer_targets` (display-column selection
dropped). -/
def get_transfer_targets (st : AdvisorState) (pos : Option String)
    (mp : Option ℚ) (n : ℕ) : List TargetRow :=
  (transferTargetsRanked st pos mp).take n

/-- The per-team dictionary entry `get_captaincy_picks` builds for a team:
`(difficulty, opponent, score)`.  The team's next fixture row comes from
`get_upcoming_fixtures(team_name, 1)`, which has no `team_h` column, so
`team_id == fixture.get('team_h', 0)` compares the team id against `0`. -/
def captainFixtureInfo (st : AdvisorState) (tid : ℕ) : ℤ × String × ℤ :=
  match get_upcoming_fixtures st.fixRows (teamRecOf st.data.teams tid).name 1 with
  | [] => (3, r"TBD", 2)
  | r :: _ =>
    if tid = rowGetTeamH r then
      (r.team_h_difficulty, r.away_short, 5 - r.team_h_difficulty)
    else
      (r.team_a_difficulty, r.home_short, 5 - r.team_a_difficulty)

/-- A player row of `get_captaincy_picks` with its computed columns. -/
structure CaptainRow where
  p : PlayerRow
  fixture_score : ℤ
  opponent : String
  captain_score : ℚ
  deriving DecidableEq

/-- Filter stage of `TransferAdvisor.get_captaincy_picks`: `status == 'a'`
and ownership `> 15`. -/
def captaincyFiltered (st : AdvisorState) : List PlayerRow :=
  (load_data st.data).filter
    (fun r => r.status = "a" && r.selected_by_percent > 15)

/-- Scoring step of `get_captaincy_picks` for one row: attach the
next-fixture score and opponent and compute
`(form*5 + fixture_score*4 + points_per_game).round(2)`. -/
def captainScored (st : AdvisorState) (r : PlayerRow) : CaptainRow :=
  { p := r
    fixture_score := (captainFixtureInfo st r.team).2.2
    opponent := (captainFixtureInfo st r.team).2.1
    captain_score :=
      round2 (r.form * 5 + ((captainFixtureInfo st r.team).2.2 : ℚ) * 4 +
        r.points_per_game) }

/-- Method `TransferAdvisor.get_captaincy_picks` without the final `head(n)`:
filter, score, sort descending by captain score. -/
def captaincyRanked (st : AdvisorState) : List CaptainRow :=
  sortDescBy (fun c => c.captain_score)
    ((captaincyFiltered st).map (captainScored st))

/-- Method `TransferAdvisor.get_captaincy_picks` (display-column selection
dropped). -/
def get_captaincy_picks (st : AdvisorState) (n : ℕ) : List CaptainRow :=
  (captaincyRanked st).take n

/-! ## `FPLClient`: cache and lookups

The HTTP layer is modelled as a pure step function: the body the network
*would* return is an explicit argument, and the boolean result records
whether the network was hit.  `_rate_limit` only sleeps and touches
`last_request_time`; it affects no payload or cache content and is omitted.
-/

/-- A decoded JSON payload, as far as the cache logic observes it: Python
truthiness of a decoded dict/list is non-emptiness, and the cache stores and
returns the object wholesale.  Entries model the top-level members. -/
def Payload : Type := List (String × ℤ)

instance : DecidableEq Payload := inferInstanceAs (DecidableEq (List (String × ℤ)))

/-- Python `if cached:` on a decoded dict/list: true iff non-empty. -/
def Payload.truthy (p : Payload) : Bool :=
  match p with
  | [] => false
  | _ :: _ => true

/-- The mutable state of `FPLClient` that the caching logic reads and
writes: the cache dictionary (endpoint to payload and fetch time, most recent
entry first) and the configured TTL.  Times are rationals (seconds). -/
structure ClientState where
  cache : List (String × Payload × ℚ)
  cache_duration : ℚ
  deriving DecidableEq

/-- Method `FPLClient._get_cached`: a stored entry is returned iff
`now - timestamp < cache_duration`. -/
def get_cached (st : ClientState) (key : String) (now : ℚ) : Option Payload :=
  match st.cache.find? (fun e => e.1 = key) with
  | some e => if now - e.2.2 < st.cache_duration then some e.2.1 else none
  | none => none

/-- Method `FPLClient._set_cache`: store (shadowing any previous entry). -/
def set_cache (st : ClientState) (key : String) (data : Payload) (now : ℚ) :
    ClientState :=
  { st with cache := (key, data, now) :: st.cache }

/-- Method `FPLClient._make_request`: on a cache hit (`use_cache` set, an entry
within its TTL, *and* the entry truthy — `if cached:`) return the cached
payload without touching the network; otherwise fetch `net` from the network,
cache it when `use_cache` is set, and return it.  The middle component
records whether a network request was made. -/
def make_request (st : ClientState) (endpoint : String) (use_cache : Bool)
    (now : ℚ) (net : Payload) : Payload × Bool × ClientState :=
  match use_cache, get_cached st endpoint now with
  | true, some cached =>
    if cached.truthy then (cached, false, st)
    else (net, true, set_cache st endpoint net now)
  | true, none => (net, true, set_cache st endpoint net now)
  | false, _ => (net, true, st)

/-- Method `FPLClient.get_player_by_id`, its loop body: first element with the id, else
`None`. -/
def get_player_by_id (players : List Element) (player_id : ℕ) :
    Option Element :=
  match players with
  | [] => none
  | p :: ps => if p.id = player_id then some p else get_player_by_id ps player_id

/-- Method `FPLClient.get_team_by_id`, its loop body: first team with the id, else
`None`. -/
def get_team_by_id (teams : List Team) (team_id : ℕ) : Option Team :=
  match teams with
  | [] => none
  | t :: ts => if t.id = team_id then some t else get_team_by_id ts team_id

/-- The message of the `ValueError` raised by `FPLClient.get_fixture`. -/
def fixtureNotFoundMsg (fixture_id : ℕ) : String :=
  "Fixture " ++ toString fixture_id ++ " not found"

/-- Method `FPLClient.get_fixture`: first fixture with the id, else a raised
`ValueError` (modelled as `Except.error`). -/
def get_fixture (fixtures : List Fixture) (fixture_id : ℕ) :
    Except String Fixture :=
  match fixtures with
  | [] => Except.error (fixtureNotFoundMsg fixture_id)
  | f :: fs =>
    if f.id = fixture_id then Except.ok f else get_fixture fs fixture_id

/-! ## Concrete sample inputs used by the closed evaluation theorems -/

/-- Sample player for the transfer-target filter evaluations: costs 7.0,
30 points, in form, available. -/
def c1Player : Element :=
  { id := 1, web_name := "Kay", team := 1, element_type := 3, now_cost := 70,
    total_points := 30, form := 1, points_per_game := 1,
    selected_by_percent := 1, status := "a" }

/-- Sample team for the transfer-target filter evaluations. -/
def c1Team : Team := { id := 1, name := "Alpha", short_name := "ALP" }

/-- Sample advisor session for the transfer-target filter evaluations. -/
def c1State : AdvisorState :=
  { data := { elements := [c1Player], teams := [c1Team] }, fixtures := [] }

/-- Position filter argument exercised by the transfer-target evaluations. -/
def c1PosFilter : String := "mid"

/-- The scored row `get_transfer_targets` produces for `c1Player`: no
fixtures, so `avg_difficulty = 0` and `fixture_score = 5`;
`points_per_million = round2(30/7) = 4.29`;
`transfer_score = round2(4 + 4.29*0.3 + 15) = 20.29`. -/
def c1TargetRow : TargetRow :=
  { p := { id := 1, web_name := "Kay", team := 1, element_type := 3,
           now_cost := 70, total_points := 30, form := 1,
           points_per_game := 1, selected_by_percent := 1, status := "a",
           team_name := "Alpha", position := "MID", value := 7,
           points_per_million := 429 / 100 }
    fixture_score := 5
    transfer_score := 2029 / 100 }

/-- Sample teams for the captaincy evaluation: none of the full names occurs
in a short code (as with real FPL names). -/
def c2Teams : List Team :=
  [{ id := 1, name := "Alpha", short_name := "AAA" },
   { id := 2, name := "Beta", short_name := "BBB" },
   { id := 3, name := "Gama", short_name := "GGG" }]

/-- Sample fixture: Alpha at home to Beta, home-side difficulty 2, away-side
difficulty 5, not finished. -/
def c2Fixture : Fixture :=
  { id := 1, event := 1, team_h := 1, team_a := 2, team_h_difficulty := 2,
    team_a_difficulty := 5, finished := false }

/-- Available, 20%-owned player of Alpha (the home team of `c2Fixture`). -/
def c2P1 : Element :=
  { id := 1, web_name := "PA", team := 1, element_type := 3, now_cost := 50,
    total_points := 30, form := 1, points_per_game := 0,
    selected_by_percent := 20, status := "a" }

/-- Available, 20%-owned player of Gama, which has no fixture at all. -/
def c2P3 : Element :=
  { id := 3, web_name := "PC", team := 3, element_type := 3, now_cost := 50,
    total_points := 30, form := 0, points_per_game := 0,
    selected_by_percent := 20, status := "a" }

/-- Sample advisor session for the captaincy evaluations. -/
def c2State : AdvisorState :=
  { data := { elements := [c2P1, c2P3], teams := c2Teams },
    fixtures := [c2Fixture] }

/-- The captaincy row produced for `c2P3`: its team has no upcoming fixture,
so the default difficulty 3 / opponent `TBD` / score 2 applies and
`captain_score = round2(0*5 + 2*4 + 0) = 8`. -/
def c2SampleRow : CaptainRow :=
  { p := { id := 3, web_name := "PC", team := 3, element_type := 3,
           now_cost := 50, total_points := 30, form := 0,
           points_per_game := 0, selected_by_percent := 20, status := "a",
           team_name := "Gama", position := "MID", value := 5,
           points_per_million := 6 }
    fixture_score := 2
    opponent := "TBD"
    captain_score := 8 }

/-- Sample teams for the no-fixture evaluation: Alpha has no fixture, Beta
and Gama play each other. -/
def c3Teams : List Team :=
  [{ id := 1, name := "Alpha", short_name := "AAA" },
   { id := 2, name := "Beta", short_name := "BBB" },
   { id := 3, name := "Gama", short_name := "GGG" }]

/-- The one unfinished fixture: Beta vs Gama with the easiest possible
difficulty 1 on both sides. -/
def c3Fixture : Fixture :=
  { id := 1, event := 1, team_h := 2, team_a := 3, team_h_difficulty := 1,
    team_a_difficulty := 1, finished := false }

/-- Available 50-point player of fixture-less Alpha. -/
def c3P1 : Element :=
  { id := 1, web_name := "PA", team := 1, element_type := 3, now_cost := 50,
    total_points := 50, form := 1, points_per_game := 1,
    selected_by_percent := 1, status := "a" }

/-- Available 50-point player of Beta, whose fixtures are all difficulty 1. -/
def c3P2 : Element :=
  { id := 2, web_name := "PB", team := 2, element_type := 3, now_cost := 50,
    total_points := 50, form := 1, points_per_game := 1,
    selected_by_percent := 1, status := "a" }

/-- Sample advisor session in which one team has no upcoming fixture. -/
def c3State : AdvisorState :=
  { data := { elements := [c3P1, c3P2], teams := c3Teams },
    fixtures := [c3Fixture] }

/-- The fixture-less team's name, as the advisor queries it. -/
def c3QueryName : String := "Alpha"

/-- The query name for the two-fixture difficulty evaluation.  Its team's
short code is `QQQ`, so the name does not occur in the short code — exactly
as with real FPL names (for example `Arsenal` vs `ARS`). -/
def c4QueryName : String := "Alpha"

/-- Teams for the two-fixture difficulty evaluation. -/
def c4Teams : List Team :=
  [{ id := 1, name := "Alpha", short_name := "QQQ" },
   { id := 2, name := "Beta", short_name := "BBB" },
   { id := 3, name := "Gama", short_name := "GGG" }]

/-- Alpha's two upcoming fixtures: at home (home-side difficulty 2, the
opponent's away-side difficulty is 5), then away (away-side difficulty 4). -/
def c4Fixtures : List Fixture :=
  [{ id := 1, event := 1, team_h := 1, team_a := 2, team_h_difficulty := 2,
     team_a_difficulty := 5, finished := false },
   { id := 2, event := 2, team_h := 3, team_a := 1, team_h_difficulty := 1,
     team_a_difficulty := 4, finished := false }]

/-- The joined fixture table of the two-fixture evaluation. -/
def c4Rows : List FixtureRow := load_fixture_data c4Fixtures c4Teams

/-- A query name that does occur (case-insensitively) in its own team's short
code, so the substring side-selection works as intended for it. -/
def c4wQueryName : String := "alp"

/-- Teams for the witness of the amended two-fixture property. -/
def c4wTeams : List Team :=
  [{ id := 1, name := "alp", short_name := "ALP" },
   { id := 2, name := "Beta", short_name := "BBB" },
   { id := 3, name := "Gama", short_name := "GGG" }]

/-- The witness team's two upcoming fixtures: home with home-side difficulty
2, away with away-side difficulty 4. -/
def c4wFixtures : List Fixture :=
  [{ id := 1, event := 1, team_h := 1, team_a := 2, team_h_difficulty := 2,
     team_a_difficulty := 5, finished := false },
   { id := 2, event := 2, team_h := 3, team_a := 1, team_h_difficulty := 1,
     team_a_difficulty := 4, finished := false }]

/-- The joined fixture table of the witness. -/
def c4wRows : List FixtureRow := load_fixture_data c4wFixtures c4wTeams

/-- Teams for the double/blank gameweek witness. -/
def c5Teams : List Team :=
  [{ id := 1, name := "Alpha", short_name := "AAA" },
   { id := 2, name := "Beta", short_name := "BBB" },
   { id := 3, name := "Gama", short_name := "GGG" }]

/-- The double/blank gameweek witness team. -/
def c5TeamA : Team := { id := 1, name := "Alpha", short_name := "AAA" }

/-- Fixture rows: Alpha plays twice in gameweek 1 (a double) and once in
gameweek 2; Gama plays once in gameweek 1 and not in gameweek 2 (a blank). -/
def c5Rows : List FixtureRow :=
  [{ id := 1, event := 1, team_h := 1, team_a := 2, team_h_difficulty := 2,
     team_a_difficulty := 2, finished := false, home_team_name := "Alpha",
     away_team_name := "Beta", home_short := "AAA", away_short := "BBB" },
   { id := 2, event := 1, team_h := 3, team_a := 1, team_h_difficulty := 2,
     team_a_difficulty := 2, finished := false, home_team_name := "Gama",
     away_team_name := "Alpha", home_short := "GGG", away_short := "AAA" },
   { id := 3, event := 2, team_h := 1, team_a := 2, team_h_difficulty := 2,
     team_a_difficulty := 2, finished := false, home_team_name := "Alpha",
     away_team_name := "Beta", home_short := "AAA", away_short := "BBB" }]

/-- The endpoint exercised by the cache evaluations. -/
def c6Endpoint : String := "/bootstrap-static/"

/-- A fresh client with the default 300-second TTL and an empty cache. -/
def c6State : ClientState := { cache := [], cache_duration := 300 }

/-- A non-empty (truthy) payload. -/
def c6Payload : Payload := [(r"elements", 1)]

/-- Sample player for the max-price filter evaluations: price 7.0, 60
points, available. -/
def c7Player : Element :=
  { id := 1, web_name := "Kay", team := 1, element_type := 3, now_cost := 70,
    total_points := 60, form := 1, points_per_game := 1,
    selected_by_percent := 1, status := "a" }

/-- Sample team for the max-price filter evaluations. -/
def c7Team : Team := { id := 1, name := "Alpha", short_name := "ALP" }

/-- Sample bootstrap payload for the max-price filter evaluations. -/
def c7Bootstrap : Bootstrap := { elements := [c7Player], teams := [c7Team] }

/-- Sample advisor session for the max-price filter evaluations. -/
def c7State : AdvisorState := { data := c7Bootstrap, fixtures := [] }

/-- An available player with 60 points and price 0 (`now_cost = 0`). -/
def c8Player : Element :=
  { id := 1, web_name := "Zed", team := 1, element_type := 4, now_cost := 0,
    total_points := 60, form := 1, points_per_game := 1,
    selected_by_percent := 1, status := "a" }

/-- Sample team for the zero-price evaluations. -/
def c8Team : Team := { id := 1, name := "Alpha", short_name := "ALP" }

/-- Bootstrap payload containing only the zero-price player. -/
def c8Bootstrap : Bootstrap := { elements := [c8Player], teams := [c8Team] }

/-- The player row `_load_data` builds for the zero-price player (the
rational convention gives `points_per_million = round2(60/0) = 0` where the
float code produces `inf`). -/
def c8Row : PlayerRow :=
  { id := 1, web_name := "Zed", team := 1, element_type := 4, now_cost := 0,
    total_points := 60, form := 1, points_per_game := 1,
    selected_by_percent := 1, status := "a", team_name := "Alpha",
    position := "FWD", value := 0, points_per_million := 0 }

/-- Empty bootstrap payload for the determinism witness. -/
def c9Bootstrap : Bootstrap := { elements := [], teams := [] }

/-- Empty advisor session for the determinism witness. -/
def c9State : AdvisorState := { data := c9Bootstrap, fixtures := [] }

/-- Sample player for the lookup-miss witness. -/
def c10Player : Element :=
  { id := 1, web_name := "P", team := 1, element_type := 3, now_cost := 50,
    total_points := 10, form := 1, points_per_game := 1,
    selected_by_percent := 1, status := "a" }

/-- Sample team for the lookup-miss witness. -/
def c10Team : Team := { id := 1, name := "Alpha", short_name := "ALP" }

/-- Sample fixture for the lookup-miss witness. -/
def c10Fixture : Fixture :=
  { id := 1, event := 1, team_h := 1, team_a := 2, team_h_difficulty := 2,
    team_a_difficulty := 3, finished := false }


/-! ## Helper lemmas about the embedding's list combinators -/

theorem mem_sortAscBy {α : Type} {β : Type} [LinearOrder β] {key : α → β}
    {l : List α} {a : α} : a ∈ sortAscBy key l ↔ a ∈ l :=
  (List.perm_insertionSort _ _).mem_iff

theorem mem_sortDescBy {α : Type} {β : Type} [LinearOrder β] {key : α → β}
    {l : List α} {a : α} : a ∈ sortDescBy key l ↔ a ∈ l :=
  (List.perm_insertionSort _ _).mem_iff

theorem pairwise_sortDescBy {α : Type} {β : Type} [LinearOrder β] (key : α → β)
    (l : List α) : List.Pairwise (byKeyGE key) (sortDescBy key l) :=
  List.sorted_insertionSort _ _

theorem mem_dedupFirst {α : Type} [DecidableEq α] {a : α} :
    ∀ {l : List α}, a ∈ dedupFirst l ↔ a ∈ l
  | [] => by rw [dedupFirst]
  | b :: bs => by
    rw [dedupFirst]
    by_cases hab : a = b
    · subst hab; simp
    · simp only [List.mem_cons, hab, false_or]
      rw [mem_dedupFirst (l := bs.filter (fun x => x ≠ b))]
      simp [List.mem_filter, hab]
termination_by l => l.length
decreasing_by
  simp only [List.length_cons]
  exact Nat.lt_succ_of_le (List.length_filter_le _ _)

theorem mem_of_mem_filterPosition {pos : Option String} {df : List PlayerRow}
    {r : PlayerRow} (h : r ∈ filterPosition pos df) : r ∈ df := by
  cases pos with
  | none => exact h
  | some q =>
    rw [filterPosition] at h
    by_cases hq : q = ""
    · rw [if_pos hq] at h; exact h
    · rw [if_neg hq] at h; exact (List.mem_filter.1 h).1

theorem position_of_mem_filterPosition {q : String} {df : List PlayerRow}
    {r : PlayerRow} (hq : q ≠ "") (h : r ∈ filterPosition (some q) df) :
    r.position = strUpper q := by
  rw [filterPosition, if_neg hq] at h
  exact of_decide_eq_true (List.mem_filter.1 h).2

theorem mem_of_mem_filterMaxPrice {mp : Option ℚ} {df : List PlayerRow}
    {r : PlayerRow} (h : r ∈ filterMaxPrice mp df) : r ∈ df := by
  cases mp with
  | none => exact h
  | some m =>
    rw [filterMaxPrice] at h
    by_cases hm : m = 0
    · rw [if_pos hm] at h; exact h
    · rw [if_neg hm] at h; exact (List.mem_filter.1 h).1

theorem value_of_mem_filterMaxPrice {m : ℚ} {df : List PlayerRow}
    {r : PlayerRow} (hm : m ≠ 0) (h : r ∈ filterMaxPrice (some m) df) :
    r.value ≤ m := by
  rw [filterMaxPrice, if_neg hm] at h
  exact of_decide_eq_true (List.mem_filter.1 h).2

/-! ## C10 -/

/-- C10: `get_player_by_id` and `get_team_by_id` return an absent result
(`None`) when no record with the given id exists, while `get_fixture` raises
a not-found `ValueError` instead. -/
theorem lookup_miss_contrast (players : List Element) (teams : List Team)
    (fixtures : List Fixture) (pid tid fid : ℕ)
    (hp : ∀ p ∈ players, p.id ≠ pid) (ht : ∀ t ∈ teams, t.id ≠ tid)
    (hf : ∀ f ∈ fixtures, f.id ≠ fid) :
    get_player_by_id players pid = none ∧ get_team_by_id teams tid = none ∧
    get_fixture fixtures fid = Except.error (fixtureNotFoundMsg fid) := by
  refine ⟨?_, ?_, ?_⟩
  · clear ht hf
    induction players with
    | nil => rfl
    | cons p ps ih =>
      rw [get_player_by_id, if_neg (hp p (List.mem_cons_self p ps))]
      exact ih (fun q hq => hp q (List.mem_cons_of_mem _ hq))
  · clear hp hf
    induction teams with
    | nil => rfl
    | cons t ts ih =>
      rw [get_team_by_id, if_neg (ht t (List.mem_cons_self t ts))]
      exact ih (fun u hu => ht u (List.mem_cons_of_mem _ hu))
  · clear hp ht
    induction fixtures with
    | nil => rfl
    | cons f fs ih =>
      rw [get_fixture, if_neg (hf f (List.mem_cons_self f fs))]
      exact ih (fun g hg => hf g (List.mem_cons_of_mem _ hg))

/-- Witness for C10 at a concrete one-element table and absent ids. -/
theorem lookup_miss_contrast_witness :
    get_player_by_id [c10Player] 2 = none ∧ get_team_by_id [c10Team] 5 = none ∧
    get_fixture [c10Fixture] 9 = Except.error (fixtureNotFoundMsg 9) :=
  lookup_miss_contrast [c10Player] [c10Team] [c10Fixture] 2 5 9
    (by decide) (by decide) (by decide)

/-! ## C9 -/

/-- C9: building the player table twice from the same raw bootstrap payload
produces identical derived fields (price and points-per-price), and the
scoring functions return the same result when applied twice to unchanged
inputs: the embedding of the source is pure, with no hidden state. -/
theorem build_deterministic (raw : Bootstrap) (df1 df2 : List PlayerRow)
    (h1 : df1 = load_data raw) (h2 : df2 = load_data raw) (st : AdvisorState)
    (pos : Option String) (mp : Option ℚ) (n : ℕ) :
    df1.map (fun r => (r.value, r.points_per_million)) =
      df2.map (fun r => (r.value, r.points_per_million)) ∧
    df1 = df2 ∧
    get_best_value_players raw n pos mp = get_best_value_players raw n pos mp ∧
    get_transfer_targets st pos mp n = get_transfer_targets st pos mp n ∧
    get_captaincy_picks st n = get_captaincy_picks st n := by
  subst h1
  subst h2
  exact ⟨rfl, rfl, rfl, rfl, rfl⟩

/-- Witness for C9 at a concrete payload. -/
theorem build_deterministic_witness :
    (load_data c9Bootstrap).map (fun r => (r.value, r.points_per_million)) =
      (load_data c9Bootstrap).map (fun r => (r.value, r.points_per_million)) ∧
    load_data c9Bootstrap = load_data c9Bootstrap ∧
    get_best_value_players c9Bootstrap 5 none none =
      get_best_value_players c9Bootstrap 5 none none ∧
    get_transfer_targets c9State none none 5 =
      get_transfer_targets c9State none none 5 ∧
    get_captaincy_picks c9State 5 = get_captaincy_picks c9State 5 :=
  build_deterministic c9Bootstrap (load_data c9Bootstrap) (load_data c9Bootstrap)
    rfl rfl c9State none none 5

/-! ## C3 -/

set_option maxRecDepth 1000000 in
/-- C3: a team with no upcoming fixtures does get the defined empty result
(average difficulty 0, empty fixture list) — but `get_transfer_targets`
turns that average 0 into fixture score `5 - 0 = 5`, the best possible value
(a team whose real fixtures all have the minimum difficulty 1 only reaches
4), so the no-data team's player ranks first: the caller treats "no data" as
"best difficulty", contradicting the claim. -/
theorem no_fixture_team_scores_best :
    get_fixture_difficulty c3State.fixRows c3QueryName 5 =
      { team := c3QueryName, avg_difficulty := 0, total_difficulty := none,
        fixtures := [] } ∧
    (get_transfer_targets c3State none none 10).map
      (fun s => (s.p.id, s.fixture_score)) = [(1, 5), (2, 4)] := by
  with_unfolding_all decide

/-! ## C4 -/

set_option maxRecDepth 1000000 in
/-- C4: a team with exactly two upcoming fixtures, at home with home-side
difficulty 2 and away with away-side difficulty 4, does *not* get average
difficulty 3.0: `get_fixture_difficulty` picks the side by substring-matching
the queried team name against the fixture's home *short code*, which fails
for full team names (here `Alpha` vs `QQQ`, as with `Arsenal` vs `ARS`), so
both fixtures use the away-side difficulty (5 and 4) and the average is
4.5. -/
theorem fixture_difficulty_side_selection_bug :
    (c4Fixtures.map fun f =>
      (f.team_h, f.team_a, f.team_h_difficulty, f.team_a_difficulty)) =
      [(1, 2, 2, 5), (3, 1, 1, 4)] ∧
    (get_upcoming_fixtures c4Rows c4QueryName 5).length = 2 ∧
    (get_fixture_difficulty c4Rows c4QueryName 5).fixtures.map
      (fun i => i.venue) = [r"A", r"A"] ∧
    (get_fixture_difficulty c4Rows c4QueryName 5).avg_difficulty = 9 / 2 ∧
    ¬((9 : ℚ) / 2 = 3) := by
  with_unfolding_all decide

set_option maxRecDepth 1000000 in
/-- Supporting observation (not a claim): when the queried name does occur in
its own team's short code, the side selection works and the same two
fixtures average `round2((2 + 4) / 2) = 3`. -/
theorem fixture_difficulty_short_code_match :
    (get_fixture_difficulty c4wRows c4wQueryName 5).avg_difficulty = 3 ∧
    (get_fixture_difficulty c4wRows c4wQueryName 5).fixtures.map
      (fun i => i.venue) = [r"H", r"A"] := by
  with_unfolding_all decide

/-! ## C8 -/

/-- C8, amended: `points_per_million` is computed by the division formula for
*every* player row, regardless of price, and a zero-price player is not
excluded — when available with positive points it still appears among the
ranked best-value rows (its non-finite float value in fact sorts it first;
the rational embedding stays silent on its position). -/
theorem ppm_division_unconditional (raw : Bootstrap) (r : PlayerRow)
    (hr : r ∈ load_data raw) (ha : r.status = "a") (hp : 0 < r.total_points) :
    r.points_per_million = round2 ((r.total_points : ℚ) / r.value) ∧
    r ∈ bestValueRanked raw none none := by
  constructor
  · obtain ⟨e, he, rfl⟩ := List.mem_map.1 hr
    rfl
  · rw [bestValueRanked, mem_sortDescBy]
    refine List.mem_filter.2 ⟨hr, ?_⟩
    simp only [Bool.and_eq_true, decide_eq_true_eq]
    exact ⟨ha, hp⟩

set_option maxRecDepth 1000000 in
/-- Witness for C8 at the concrete zero-price player. -/
theorem ppm_division_unconditional_witness :
    c8Row.points_per_million = round2 ((c8Row.total_points : ℚ) / c8Row.value) ∧
    c8Row ∈ bestValueRanked c8Bootstrap none none :=
  ppm_division_unconditional c8Bootstrap c8Row
    (by with_unfolding_all decide) rfl (by decide)

set_option maxRecDepth 1000000 in
/-- Counterexample to C8 as stated: the zero-price player is *not* treated as
excluded — it is returned by `get_best_value_players` (here as the only
row, so with any float semantics of its `inf` score it is returned). -/
theorem zero_price_not_excluded_counterexample :
    (get_best_value_players c8Bootstrap 10 none none).map
      (fun r => (r.id, r.value)) = [(1, 0)] := by
  with_unfolding_all decide

/-! ## C7 -/

/-- C7, amended: for every *nonzero* value of the max-price filter, every row
returned by the scoring functions that accept one (`get_best_value_players`
and `get_transfer_targets`) has price at most the filter value.  A filter
value of 0 is falsy in Python and disables the filter entirely. -/
theorem max_price_filter_spec (raw : Bootstrap) (st : AdvisorState)
    (pos : Option String) (m : ℚ) (n : ℕ) (hm : m ≠ 0) :
    (∀ r ∈ get_best_value_players raw n pos (some m), r.value ≤ m) ∧
    (∀ s ∈ get_transfer_targets st pos (some m) n, s.p.value ≤ m) := by
  constructor
  · intro r hrt
    have hr1 : r ∈ bestValueRanked raw pos (some m) := List.mem_of_mem_take hrt
    rw [bestValueRanked, mem_sortDescBy] at hr1
    exact value_of_mem_filterMaxPrice hm (List.mem_filter.1 hr1).1
  · intro s hst
    have hs1 : s ∈ transferTargetsRanked st pos (some m) :=
      List.mem_of_mem_take hst
    rw [transferTargetsRanked, mem_sortDescBy] at hs1
    obtain ⟨r, hr, rfl⟩ := List.mem_map.1 hs1
    rw [transferTargetsFiltered] at hr
    exact value_of_mem_filterMaxPrice hm (List.mem_filter.1 hr).1

set_option maxRecDepth 1000000 in
/-- Witness for C7 at a concrete table and the filter value 8. -/
theorem max_price_filter_spec_witness :
    (∀ r ∈ get_best_value_players c7Bootstrap 10 none (some 8), r.value ≤ 8) ∧
    (∀ s ∈ get_transfer_targets c7State none (some 8) 10, s.p.value ≤ 8) :=
  max_price_filter_spec c7Bootstrap c7State none 8 10 (by norm_num)

set_option maxRecDepth 1000000 in
/-- Counterexample to C7 as stated: with the filter value 0 the price filter
is skipped (`if max_price:` is false), and a row of price 7 is returned even
though 7 is not at most 0. -/
theorem max_price_zero_counterexample :
    (get_best_value_players c7Bootstrap 10 none (some 0)).map
      (fun r => r.value) = [7] ∧ ¬((7 : ℚ) ≤ 0) := by
  with_unfolding_all decide

/-! ## C1 -/

/-- C1, amended: every row returned by `get_transfer_targets` is an available
player with more than 20 total points that satisfies the position filter and
the max-price filter whenever those are non-degenerate (an empty-string
position or a max price of 0 is falsy in Python and disables the filter);
its fixture score is `5 -` the team's average difficulty over the next 5
fixtures; its score is `form*4 + points_per_million*0.3 + fixture_score*3`
rounded to two decimals; and rows are ordered by this score descending. -/
theorem transfer_targets_spec (st : AdvisorState) (pos : Option String)
    (mp : Option ℚ) (n : ℕ) (hpos : pos ≠ some "") (hmp : mp ≠ some 0) :
    (∀ s ∈ get_transfer_targets st pos mp n,
      s.p.status = "a" ∧ 20 < s.p.total_points ∧
      (match pos with
       | none => True
       | some q => s.p.position = strUpper q) ∧
      (match mp with
       | none => True
       | some m => s.p.value ≤ m) ∧
      s.fixture_score = 5 - (get_fixture_difficulty st.fixRows
        (teamRecOf st.data.teams s.p.team).name 5).avg_difficulty ∧
      s.transfer_score = round2 (s.p.form * 4 +
        s.p.points_per_million * (3 / 10) + s.fixture_score * 3)) ∧
    List.Pairwise (fun a b => b.transfer_score ≤ a.transfer_score)
      (get_transfer_targets st pos mp n) := by
  constructor
  · intro s hs
    have hs1 : s ∈ transferTargetsRanked st pos mp := List.mem_of_mem_take hs
    rw [transferTargetsRanked, mem_sortDescBy] at hs1
    obtain ⟨r, hr, rfl⟩ := List.mem_map.1 hs1
    rw [transferTargetsFiltered] at hr
    obtain ⟨hrf, hq⟩ := List.mem_filter.1 hr
    rw [Bool.and_eq_true, decide_eq_true_eq, decide_eq_true_eq] at hq
    refine ⟨hq.1, hq.2, ?_, ?_, rfl, rfl⟩
    · cases pos with
      | none => trivial
      | some q =>
        have hq2 : q ≠ "" := fun h => hpos (by rw [h])
        exact position_of_mem_filterPosition hq2 (mem_of_mem_filterMaxPrice hrf)
    · cases mp with
      | none => trivial
      | some m =>
        have hm2 : m ≠ 0 := fun h => hmp (by rw [h])
        exact value_of_mem_filterMaxPrice hm2 hrf
  · rw [get_transfer_targets, transferTargetsRanked]
    exact ((pairwise_sortDescBy _ _).sublist (List.take_sublist _ _)).imp
      (fun h => h)

set_option maxRecDepth 1000000 in
/-- Witness for C1 at a concrete table, position filter `mid` and max price
8: the one qualifying player satisfies every clause. -/
theorem transfer_targets_spec_witness :
    c1TargetRow.p.status = "a" ∧ 20 < c1TargetRow.p.total_points ∧
    c1TargetRow.p.position = strUpper c1PosFilter ∧
    c1TargetRow.p.value ≤ 8 ∧
    c1TargetRow.fixture_score = 5 - (get_fixture_difficulty c1State.fixRows
      (teamRecOf c1State.data.teams c1TargetRow.p.team).name 5).avg_difficulty ∧
    c1TargetRow.transfer_score = round2 (c1TargetRow.p.form * 4 +
      c1TargetRow.p.points_per_million * (3 / 10) +
      c1TargetRow.fixture_score * 3) :=
  (transfer_targets_spec c1State (some c1PosFilter) (some 8) 10
    (by decide) (by norm_num)).1 c1TargetRow (by with_unfolding_all decide)

set_option maxRecDepth 1000000 in
/-- Counterexample to C1 as stated: with a max price of 0 the price filter is
skipped and a row of price 7 is returned, and with an empty-string position
filter the position filter is skipped and a `MID` row is returned — rows not
satisfying the supplied filters. -/
theorem transfer_targets_zero_filter_counterexample :
    (get_transfer_targets c1State none (some 0) 10).map
      (fun s => s.p.value) = [7] ∧ ¬((7 : ℚ) ≤ 0) ∧
    (get_transfer_targets c1State (some "") none 10).map
      (fun s => s.p.position) = [r"MID"] ∧ ¬(r"MID" = "") := by
  with_unfolding_all decide

/-! ## C2 -/

/-- C2, amended: every captaincy row is an available player with ownership
above 15%.  Because `get_upcoming_fixtures` drops the `team_h` column, the
home/away test `team_id == fixture.get('team_h', 0)` compares the team id
with 0 and (for the real, nonzero team ids) always takes the away branch: a
team with a next fixture gets fixture score `5 -` the *away-side* difficulty
and the *home* short code as opponent, whatever its venue; a team with no
next fixture gets the defaults difficulty 3 / score 2 / opponent `TBD` (not
`unknown`).  The captain score is `form*5 + fixture_score*4 +
points_per_game`, rounded to two decimals. -/
theorem captaincy_picks_spec (st : AdvisorState) (n : ℕ)
    (hz : ∀ e ∈ st.data.elements, e.team ≠ 0) :
    ∀ c ∈ get_captaincy_picks st n,
      c.p.status = "a" ∧ 15 < c.p.selected_by_percent ∧
      c.fixture_score = (match get_upcoming_fixtures st.fixRows
          (teamRecOf st.data.teams c.p.team).name 1 with
        | [] => 2
        | u :: _ => 5 - u.team_a_difficulty) ∧
      c.opponent = (match get_upcoming_fixtures st.fixRows
          (teamRecOf st.data.teams c.p.team).name 1 with
        | [] => "TBD"
        | u :: _ => u.home_short) ∧
      c.captain_score = round2 (c.p.form * 5 + (c.fixture_score : ℚ) * 4 +
        c.p.points_per_game) := by
  intro c hc
  have hc1 : c ∈ captaincyRanked st := List.mem_of_mem_take hc
  rw [captaincyRanked, mem_sortDescBy] at hc1
  obtain ⟨r, hr, rfl⟩ := List.mem_map.1 hc1
  rw [captaincyFiltered] at hr
  obtain ⟨hrd, hq⟩ := List.mem_filter.1 hr
  rw [Bool.and_eq_true, decide_eq_true_eq, decide_eq_true_eq] at hq
  have hteam : r.team ≠ 0 := by
    obtain ⟨e, he, rfl⟩ := List.mem_map.1 hrd
    exact hz e he
  refine ⟨hq.1, hq.2, ?_, ?_, rfl⟩
  · show (captainFixtureInfo st r.team).2.2 =
      (match get_upcoming_fixtures st.fixRows
          (teamRecOf st.data.teams r.team).name 1 with
        | [] => 2
        | u :: _ => 5 - u.team_a_difficulty)
    rw [captainFixtureInfo]
    cases h : get_upcoming_fixtures st.fixRows
        (teamRecOf st.data.teams r.team).name 1 with
    | nil => rfl
    | cons u us =>
      have h0 : ¬(r.team = rowGetTeamH u) := fun hh => hteam (hh.trans rfl)
      dsimp only
      rw [if_neg h0]
  · show (captainFixtureInfo st r.team).2.1 =
      (match get_upcoming_fixtures st.fixRows
          (teamRecOf st.data.teams r.team).name 1 with
        | [] => "TBD"
        | u :: _ => u.home_short)
    rw [captainFixtureInfo]
    cases h : get_upcoming_fixtures st.fixRows
        (teamRecOf st.data.teams r.team).name 1 with
    | nil => rfl
    | cons u us =>
      have h0 : ¬(r.team = rowGetTeamH u) := fun hh => hteam (hh.trans rfl)
      dsimp only
      rw [if_neg h0]

set_option maxRecDepth 1000000 in
/-- Witness for C2 at the concrete no-fixture team's player. -/
theorem captaincy_picks_spec_witness :
    c2SampleRow.p.status = "a" ∧ 15 < c2SampleRow.p.selected_by_percent ∧
    c2SampleRow.fixture_score = (match get_upcoming_fixtures c2State.fixRows
        (teamRecOf c2State.data.teams c2SampleRow.p.team).name 1 with
      | [] => 2
      | u :: _ => 5 - u.team_a_difficulty) ∧
    c2SampleRow.opponent = (match get_upcoming_fixtures c2State.fixRows
        (teamRecOf c2State.data.teams c2SampleRow.p.team).name 1 with
      | [] => "TBD"
      | u :: _ => u.home_short) ∧
    c2SampleRow.captain_score = round2 (c2SampleRow.p.form * 5 +
      (c2SampleRow.fixture_score : ℚ) * 4 + c2SampleRow.p.points_per_game) :=
  captaincy_picks_spec c2State 5 (by decide) c2SampleRow
    (by with_unfolding_all decide)

set_option maxRecDepth 1000000 in
/-- Counterexample to C2 as stated: the player of the home team gets score
`round2(1*5 + (5-5)*4 + 0) = 5` — the *away-side* difficulty 5 of its home
fixture, not the home side's 2 as "the difficulty from that team's side"
requires, which would give 17 — and even its reported opponent is its own
short code `AAA`; and the no-fixture team's opponent reads `TBD`, not
`unknown`. -/
theorem captaincy_picks_counterexample :
    (get_captaincy_picks c2State 5).map
      (fun c => (c.p.id, c.captain_score, c.opponent)) =
      [(3, 8, r"TBD"), (1, 5, r"AAA")] ∧
    round2 ((1 : ℚ) * 5 + ((5 : ℚ) - 2) * 4 + 0) = 17 ∧
    ¬((5 : ℚ) = 17) ∧ ¬(r"TBD" = "unknown") := by
  with_unfolding_all decide

/-! ## C6 -/

/-- C6, amended: after a fetch of an endpoint that hit the network, a second
cached fetch within the TTL returns the identical payload without a network
call — *provided the payload is truthy (non-empty)*: `if cached:` refetches
a falsy payload. -/
theorem cache_hit_within_ttl (st : ClientState) (ep : String) (t0 t1 : ℚ)
    (net0 net1 p0 : Payload) (st1 : ClientState)
    (h1 : make_request st ep true t0 net0 = (p0, true, st1))
    (htr : p0.truthy = true)
    (httl : t1 - t0 < st.cache_duration) :
    make_request st1 ep true t1 net1 = (p0, false, st1) := by
  obtain ⟨hp, hs⟩ : net0 = p0 ∧ set_cache st ep net0 t0 = st1 := by
    cases hg : get_cached st ep t0 with
    | none =>
      simp only [make_request, hg, Prod.mk.injEq] at h1
      exact ⟨h1.1, h1.2.2⟩
    | some cached =>
      simp only [make_request, hg] at h1
      by_cases hct : cached.truthy = true
      · rw [if_pos hct] at h1
        simp only [Prod.mk.injEq] at h1
        exact absurd h1.2.1 Bool.false_ne_true
      · rw [if_neg hct] at h1
        simp only [Prod.mk.injEq] at h1
        exact ⟨h1.1, h1.2.2⟩
  subst hp
  subst hs
  have hgc : get_cached (set_cache st ep net0 t0) ep t1 = some net0 := by
    rw [get_cached, set_cache]
    rw [List.find?_cons_of_pos _ (by simp)]
    exact if_pos httl
  simp only [make_request, hgc, htr, if_true]

/-- Witness for C6: a network fetch of a truthy payload at time 0 followed by
a cached fetch at time 10 (within the 300-second TTL). -/
theorem cache_hit_within_ttl_witness :
    make_request (set_cache c6State c6Endpoint c6Payload 0) c6Endpoint true 10
      [] = (c6Payload, false, set_cache c6State c6Endpoint c6Payload 0) :=
  cache_hit_within_ttl c6State c6Endpoint 0 10 c6Payload [] c6Payload
    (set_cache c6State c6Endpoint c6Payload 0) (by with_unfolding_all decide)
    (by decide) (by with_unfolding_all decide)

/-- Counterexample to C6 as stated: a fetch whose payload decodes to an empty
object is cached, but `if cached:` is false on it, so the second fetch
within the TTL hits the network again — and here even returns a different
payload. -/
theorem cache_empty_payload_counterexample :
    (make_request c6State c6Endpoint true 0 []).2.1 = true ∧
    (make_request (make_request c6State c6Endpoint true 0 []).2.2 c6Endpoint
      true 10 c6Payload).2.1 = true ∧
    (make_request (make_request c6State c6Endpoint true 0 []).2.2 c6Endpoint
      true 10 c6Payload).1 ≠ (make_request c6State c6Endpoint true 0 []).1 ∧
    (10 : ℚ) - 0 < c6State.cache_duration := by
  with_unfolding_all decide

/-! ## C5 -/

theorem fixtureCount_eq_zero_iff (df : List FixtureRow) (gw tid : ℕ) :
    fixtureCount df gw tid = 0 ↔
      (df.filter (fun r =>
        r.event = gw && (r.team_h = tid || r.team_a = tid))).length = 0 := by
  rw [fixtureCount, Nat.add_eq_zero]
  rw [List.length_eq_zero, List.length_eq_zero, List.length_eq_zero]
  rw [List.filter_eq_nil_iff, List.filter_eq_nil_iff, List.filter_eq_nil_iff]
  constructor
  · rintro ⟨h1, h2⟩ r hr hp
    simp only [Bool.and_eq_true, Bool.or_eq_true, decide_eq_true_eq] at hp
    obtain ⟨hev, hor⟩ := hp
    cases hor with
    | inl hh => exact h1 r hr (by simp [hev, hh])
    | inr ha => exact h2 r hr (by simp [hev, ha])
  · intro h
    constructor
    · intro r hr hp
      simp only [Bool.and_eq_true, decide_eq_true_eq] at hp
      exact h r hr (by simp [hp.1, hp.2])
    · intro r hr hp
      simp only [Bool.and_eq_true, decide_eq_true_eq] at hp
      exact h r hr (by simp [hp.1, hp.2])

/-- C5: over every team and every gameweek that appears among the unfinished
fixtures, a (team, gameweek) pair is reported by `get_double_gameweeks`
exactly when the team's fixture count in that gameweek exceeds 1, and by
`get_blank_gameweeks` exactly when that count is 0 (assuming distinct team
short codes, as in the real data). -/
theorem gameweek_detection_spec (teams : List Team) (fx : List FixtureRow)
    (t : Team) (gw : ℕ)
    (hnd : (teams.map (fun u => u.short_name)).Nodup)
    (ht : t ∈ teams)
    (hgw : gw ∈ (fx.filter (fun r => r.finished = false)).map
      (fun r => r.event)) :
    ((∃ e ∈ get_double_gameweeks teams fx,
        e.gameweek = gw ∧ e.team = t.short_name)
      ↔ 1 < fixtureCount (fx.filter (fun r => r.finished = false)) gw t.id) ∧
    ((∃ e ∈ get_blank_gameweeks teams fx,
        e.gameweek = gw ∧ e.team = t.short_name)
      ↔ fixtureCount (fx.filter (fun r => r.finished = false)) gw t.id = 0)
    := by
  constructor
  · constructor
    · rintro ⟨e, he, hegw, hets⟩
      simp only [get_double_gameweeks] at he
      rw [mem_sortAscBy, List.mem_flatMap] at he
      obtain ⟨t2, ht2, he2⟩ := he
      rw [List.mem_map] at he2
      obtain ⟨gw2, hgw2, rfl⟩ := he2
      have hg2 : gw2 = gw := hegw
      have ht4 : t2 = t := List.inj_on_of_nodup_map hnd ht2 ht hets
      subst hg2
      subst ht4
      exact of_decide_eq_true (List.mem_filter.1 hgw2).2
    · intro hcount
      simp only [get_double_gameweeks]
      refine ⟨{ gameweek := gw, team := t.short_name,
                fixtures := fixtureCount
                  (fx.filter (fun r => r.finished = false)) gw t.id },
              ?_, rfl, rfl⟩
      rw [mem_sortAscBy, List.mem_flatMap]
      exact ⟨t, ht, List.mem_map.2 ⟨gw, List.mem_filter.2
        ⟨mem_dedupFirst.2 hgw, decide_eq_true hcount⟩, rfl⟩⟩
  · constructor
    · rintro ⟨e, he, hegw, hets⟩
      simp only [get_blank_gameweeks] at he
      rw [mem_sortAscBy, List.mem_flatMap] at he
      obtain ⟨t2, ht2, he2⟩ := he
      rw [List.mem_map] at he2
      obtain ⟨gw2, hgw2, rfl⟩ := he2
      have hg2 : gw2 = gw := hegw
      have ht4 : t2 = t := List.inj_on_of_nodup_map hnd ht2 ht hets
      subst hg2
      subst ht4
      have h3 := of_decide_eq_true (List.mem_filter.1 hgw2).2
      rw [fixtureCount_eq_zero_iff]
      omega
    · intro hcount
      simp only [get_blank_gameweeks]
      refine ⟨{ gameweek := gw, team := t.short_name }, ?_, rfl, rfl⟩
      rw [mem_sortAscBy, List.mem_flatMap]
      refine ⟨t, ht, List.mem_map.2 ⟨gw, List.mem_filter.2 ⟨?_, ?_⟩, rfl⟩⟩
      · rw [mem_sortAscBy]
        exact mem_dedupFirst.2 hgw
      · apply decide_eq_true
        rw [fixtureCount_eq_zero_iff] at hcount
        omega

/-- Witness for C5: a team with two fixtures in gameweek 1 satisfies the
double-gameweek equivalence and the blank-gameweek equivalence there. -/
theorem gameweek_detection_spec_witness :
    ((∃ e ∈ get_double_gameweeks c5Teams c5Rows,
        e.gameweek = 1 ∧ e.team = c5TeamA.short_name)
      ↔ 1 < fixtureCount (c5Rows.filter (fun r => r.finished = false)) 1
            c5TeamA.id) ∧
    ((∃ e ∈ get_blank_gameweeks c5Teams c5Rows,
        e.gameweek = 1 ∧ e.team = c5TeamA.short_name)
      ↔ fixtureCount (c5Rows.filter (fun r => r.finished = false)) 1
          c5TeamA.id = 0) :=
  gameweek_detection_spec c5Teams c5Rows c5TeamA 1 (by decide) (by decide)
    (by decide)
